import Mathlib

attribute [local semireducible] Rat.ofScientific Rat.mul Rat.add Rat.sub Rat.inv

/-!
Shallow embedding of `climate_model.py` (klimatmodell_streamlit.climate_model):
a screening model for construction-stage climate impact (modules A1-A5) of
multi-family buildings, in kg CO2e/m² BTA.  Python floats are modelled as
exact rationals (ℚ); the breakdown dict keyed by Swedish category-name strings
is modelled as a function from the finite `Category` type to `Option ℚ`
(`none` = key absent).  Places where the Python code would raise
`ZeroDivisionError` are modelled by returning `none` from `estimate`.
-/

namespace ClimateModel

/-- `SystemBoundary = Literal["2022", "2027"]`. -/
inductive SystemBoundary
  | b2022
  | b2027
deriving DecidableEq, Repr

/-- `StructuralSystem = Literal["Betong", "Trä", "Stål"]`; Lean identifiers
cannot carry the Swedish letters, so `Trae` stands for "Trä" and `Stal` for
"Stål". -/
inductive StructuralSystem
  | Betong
  | Trae
  | Stal
deriving DecidableEq, Repr

/-- The building-part category keys that can occur in the breakdown dict.
ASCII-folded from the source's Swedish keys: `Klimatskarm` = "Klimatskärm",
`Innervaggar` = "Innerväggar", and `Ytskikt` stands for the key
"Invändiga ytskikt & installationer" (only present in the 2027 share table). -/
inductive Category
  | Stomme
  | Grund
  | Klimatskarm
  | Innervaggar
  | Ytskikt
deriving DecidableEq, Repr

/-- Breakdown dicts `Dict[str, float]` keyed by category names, modelled as
total functions into `Option ℚ` (`none` = key absent from the dict). -/
def Breakdown : Type := Category → Option ℚ

/-- `ModelConfig` dataclass.  The two `Dict[SystemBoundary, float]` fields and
the `Dict[StructuralSystem, float]` field are modelled as total functions
(the default config populates every key); the method-multiplier
`Dict[str, float]` keeps string keys and is an association list. -/
structure ModelConfig where
  median_kg_per_m2 : SystemBoundary → ℚ
  median_kg_per_m2_climate_improved : SystemBoundary → ℚ
  shares_2022 : Breakdown
  shares_2027 : Breakdown
  ref_form_factor : ℚ
  ref_window_ratio : ℚ
  window_to_wall_intensity_ratio : ℚ
  method_multiplier : List (String × ℚ)
  structure_affected_share_2022 : ℚ
  structure_affected_share_2027 : ℚ
  garage_add_kg_per_m2_atemp_parking05 : ℚ
  timber_t_per_m2_default_by_system : StructuralSystem → ℚ
  basement_add_kg_per_m2_bta : ℚ

/-- `ModelInputs` dataclass. -/
structure ModelInputs where
  system_boundary : SystemBoundary
  form_factor : ℚ
  window_ratio : ℚ
  floors : ℤ
  building_height_m : Option ℚ := none
  structural_system : StructuralSystem := .Betong
  method : String := "Prefabricerad betong"
  heavy_concrete_design : Bool := false
  climate_improved_materials : Bool := false
  climate_improved_applicability : ℚ := 1
  basement : Bool := false
  underground_garage : Bool := false
  parking_ratio : ℚ := 0.5
  atemp_to_bta : ℚ := 0.90
  timber_t_per_m2_override : Option ℚ := none

/-- `ModelResult` dataclass. -/
structure ModelResult where
  total_kg_per_m2_bta : ℚ
  total_t_per_m2_bta : ℚ
  reference_kg_per_m2_bta : ℚ
  delta_vs_reference_kg : ℚ
  delta_vs_reference_percent : ℚ
  breakdown_kg_per_m2_bta : Breakdown
  timber_t_per_m2_bta : ℚ
  notes : List String

/-- `default_config()`: the domain-calibrated default coefficients. -/
def default_config : ModelConfig where
  median_kg_per_m2 := fun b => match b with
    | .b2022 => 318.0
    | .b2027 => 373.0
  median_kg_per_m2_climate_improved := fun b => match b with
    | .b2022 => 271.0
    | .b2027 => 325.0
  shares_2022 := fun k => match k with
    | .Stomme => some 0.50
    | .Grund => some 0.15
    | .Klimatskarm => some 0.25
    | .Innervaggar => some 0.10
    | .Ytskikt => none
  shares_2027 := fun k => match k with
    | .Stomme => some 0.45
    | .Grund => some 0.15
    | .Klimatskarm => some 0.20
    | .Innervaggar => some 0.10
    | .Ytskikt => some 0.10
  ref_form_factor := 0.45
  ref_window_ratio := 0.20
  window_to_wall_intensity_ratio := 4.0
  method_multiplier :=
    [("Prefabricerad betong", 1.000),
     ("Platsgjuten betong (lätta utfackningsväggar)", 290.0 / 272.0),
     ("Platsgjuten betong (kvarsittande form)", 331.0 / 272.0),
     ("Volymelement i trä", 1.000),
     ("KL-trä (massiv stomme)", 1.000)]
  structure_affected_share_2022 := 0.70
  structure_affected_share_2027 := 0.65
  garage_add_kg_per_m2_atemp_parking05 := 48.0
  timber_t_per_m2_default_by_system := fun s => match s with
    | .Betong => 0.005
    | .Trae => 0.060
    | .Stal => 0.002
  basement_add_kg_per_m2_bta := 25.0

/-- `_validate_inputs`: the six independent advisory checks, in source order,
as a function of the six input fields the source reads. -/
def _validate_inputs (form_factor window_ratio : ℚ) (floors : ℤ)
    (parking_ratio atemp_to_bta climate_improved_applicability : ℚ) :
    List String :=
  let notes : List String := []
  let notes := if ¬((0.2 : ℚ) ≤ form_factor ∧ form_factor ≤ 1.5) then
    notes ++ ["Formfaktor verkar ligga utanför normalt intervall (0,2–1,5)."] else notes
  let notes := if ¬((0.0 : ℚ) ≤ window_ratio ∧ window_ratio ≤ 0.9) then
    notes ++ ["Fönsterandel bör ligga mellan 0 och 0,9."] else notes
  let notes := if floors < 1 then
    notes ++ ["Antal våningar måste vara minst 1."] else notes
  let notes := if ¬((0.0 : ℚ) ≤ parking_ratio ∧ parking_ratio ≤ 2.0) then
    notes ++ ["Parkeringstal/garagefaktor bör normalt ligga mellan 0 och 2."] else notes
  let notes := if ¬((0.7 : ℚ) ≤ atemp_to_bta ∧ atemp_to_bta ≤ 1.0) then
    notes ++ ["Atemp/BTA bör normalt ligga mellan 0,7 och 1,0."] else notes
  let notes := if climate_improved_applicability < 0 ∨ 1 < climate_improved_applicability then
    notes ++ ["Applicability för klimatförbättring måste ligga 0..1."] else notes
  notes

/-- Dict write `breakdown[k] = v` (inserts the key when absent). -/
def updateB (b : Breakdown) (k : Category) (v : ℚ) : Breakdown :=
  fun k2 => if k2 = k then some v else b k2

/-- All category keys that can occur in a breakdown dict. -/
def allCategories : List Category :=
  [.Stomme, .Grund, .Klimatskarm, .Innervaggar, .Ytskikt]

/-- `sum(breakdown.values())`: absent keys contribute nothing. -/
def sumB (b : Breakdown) : ℚ :=
  (allCategories.map (fun k => (b k).getD 0)).sum

/-- `dict.get(key, default)` on the method-multiplier association list. -/
def dictGet (t : List (String × ℚ)) (key : String) (d : ℚ) : ℚ :=
  match t with
  | [] => d
  | (a, v) :: rest => if key = a then v else dictGet rest key d

/-- The floor-height ("våningshöjdfaktor") factor of step 2, as a function of
the fields `building_height_m` and `floors` that the source reads.  Python's
`if inp.building_height_m and inp.floors > 0` is truthiness: the branch is
taken when the height is present, nonzero (of either sign) and the floor
count is positive. -/
def heightFactor (building_height_m : Option ℚ) (floors : ℤ) : ℚ :=
  match building_height_m with
  | none => 1.0
  | some h =>
    if h ≠ 0 ∧ 0 < floors then
      let ref_floor_height : ℚ := 2.8
      let floor_height := h / (floors : ℚ)
      max 0.8 (min 1.3 (floor_height / ref_floor_height))
    else 1.0

/-- Step 2: scale the envelope ("Klimatskärm") category, when present, by the
form-factor, floor-height and window-mix factors, as a function of the input
fields the source reads.  Returns `none` where the Python code would raise
`ZeroDivisionError` (zero reference form factor, zero window-mix
denominator). -/
def envelopeStep (cfg : ModelConfig) (form_factor window_ratio : ℚ)
    (building_height_m : Option ℚ) (floors : ℤ) (b : Breakdown) :
    Option Breakdown :=
  match b .Klimatskarm with
  | none => some b
  | some v =>
    if cfg.ref_form_factor = 0 then none
    else
      let form_factor_scale := form_factor / cfg.ref_form_factor
      let height_factor := heightFactor building_height_m floors
      let r := cfg.window_to_wall_intensity_ratio
      let w := window_ratio
      let w0 := cfg.ref_window_ratio
      let wdenom := w0 * r + (1 - w0) * 1.0
      if wdenom = 0 then none
      else
        let window_mix_factor := (w * r + (1 - w) * 1.0) / wdenom
        some (updateB b .Klimatskarm
          (v * (form_factor_scale * height_factor * window_mix_factor)))

/-- Step 3: low-rise correction for `floors < 4` on foundation and envelope. -/
def lowriseStep (floors : ℤ) (b : Breakdown) : Breakdown :=
  if floors < 4 then
    let lowrise_factor : ℚ := 1.0 + 0.05 * ((4 - floors : ℤ) : ℚ)
    let b1 := match b .Grund with
      | some v => updateB b .Grund (v * lowrise_factor)
      | none => b
    match b1 .Klimatskarm with
    | some v => updateB b1 .Klimatskarm (v * lowrise_factor)
    | none => b1
  else b

/-- `cfg.method_multiplier.get(inp.method, 1.0)`. -/
def methodMult (cfg : ModelConfig) (method : String) : ℚ :=
  dictGet cfg.method_multiplier method 1.0

/-- The heavy-concrete-design multiplier of step 4. -/
def heavyMult (heavy_concrete_design : Bool) : ℚ :=
  if heavy_concrete_design then 1.10 else 1.0

/-- The structural-system multiplier of step 4 (hardcoded in `estimate`). -/
def systemStructMult (boundary : SystemBoundary) (s : StructuralSystem) : ℚ :=
  match s with
  | .Trae => if boundary = .b2022 then 0.47 else 0.51
  | .Stal => 1.05
  | .Betong => 1.00

/-- The keys `("Stomme", "Grund", "Innerväggar")` scaled in step 4. -/
def structuralKeys : List Category := [.Stomme, .Grund, .Innervaggar]

/-- Step 4 loop: multiply each present key of `keys` by `m`. -/
def scaleKeys (b : Breakdown) (keys : List Category) (m : ℚ) : Breakdown :=
  keys.foldl (fun acc k =>
    match acc k with
    | some v => updateB acc k (v * m)
    | none => acc) b

/-- Step 5: basement and underground-garage add-ons on "Grund"
(`breakdown.get("Grund", 0.0) + add`, creating the key when absent). -/
def belowGradeStep (cfg : ModelConfig) (basement underground_garage : Bool)
    (parking_ratio atemp_to_bta : ℚ) (b : Breakdown) : Breakdown :=
  let b1 := if basement then
    updateB b .Grund ((b .Grund).getD 0 + cfg.basement_add_kg_per_m2_bta)
  else b
  if underground_garage then
    let add_kg_bta := cfg.garage_add_kg_per_m2_atemp_parking05
      * atemp_to_bta * (parking_ratio / 0.5)
    updateB b1 .Grund ((b1 .Grund).getD 0 + add_kg_bta)
  else b1

/-- The affected keys `["Stomme", "Grund", "Klimatskärm"]` of step 6. -/
def affectedKeys : List Category := [.Stomme, .Grund, .Klimatskarm]

/-- `sum(breakdown.get(k, 0.0) for k in affected_keys)`. -/
def affectedSum (b : Breakdown) : ℚ :=
  (affectedKeys.map (fun k => (b k).getD 0)).sum

/-- One iteration of the step 6 loop:
`breakdown[k] -= target_reduction * (breakdown[k] / affected_sum)` followed by
`breakdown[k] = max(0.0, breakdown[k])`, skipped when `k` is absent. -/
def applyReduction (target_reduction affected_sum : ℚ) (b : Breakdown)
    (k : Category) : Breakdown :=
  match b k with
  | some v => updateB b k (max 0.0 (v - target_reduction * (v / affected_sum)))
  | none => b

/-- Step 6: climate-improved-materials reduction, as a function of the input
fields the source reads (system boundary, flag, applicability).  Returns
`none` where the Python code would raise `ZeroDivisionError` (zero generic
baseline reached with positive totals, e.g. via the basement add-on). -/
def climateStep (cfg : ModelConfig) (boundary : SystemBoundary)
    (climate_improved_materials : Bool) (climate_improved_applicability : ℚ)
    (b : Breakdown) (notes : List String) : Option (Breakdown × List String) :=
  if climate_improved_materials then
    let baseline_improved := cfg.median_kg_per_m2_climate_improved boundary
    let baseline_generic := cfg.median_kg_per_m2 boundary
    let diff := max 0.0 (baseline_generic - baseline_improved)
    let affected_sum := affectedSum b
    let total_pre := sumB b
    if 0 < total_pre ∧ 0 < affected_sum then
      if baseline_generic = 0 then none
      else
        let scale := total_pre / baseline_generic
        let target_reduction := diff * scale * climate_improved_applicability
        some (affectedKeys.foldl (applyReduction target_reduction affected_sum) b, notes)
    else
      some (b, notes ++ ["Kunde inte applicera klimatförbättring (noll/negativt delbidrag)."])
  else some (b, notes)

/-- The share table selected for a boundary
(`cfg.shares_2022 if boundary == "2022" else cfg.shares_2027`). -/
def shareTable (cfg : ModelConfig) (boundary : SystemBoundary) : Breakdown :=
  if boundary = .b2022 then cfg.shares_2022 else cfg.shares_2027

/-- Step 1: `breakdown = {k: baseline * v for k, v in shares.items()}`. -/
def baseBreakdown (cfg : ModelConfig) (boundary : SystemBoundary) : Breakdown :=
  fun k => (shareTable cfg boundary k).map
    (fun v => cfg.median_kg_per_m2 boundary * v)

/-- Steps 1-3 of the pipeline, as a function of the input fields these steps
read (they do not read the structural-system, method, below-grade or
climate-improvement fields). -/
def geomBreakdown (cfg : ModelConfig) (boundary : SystemBoundary)
    (form_factor window_ratio : ℚ) (building_height_m : Option ℚ)
    (floors : ℤ) : Option Breakdown :=
  match envelopeStep cfg form_factor window_ratio building_height_m floors
      (baseBreakdown cfg boundary) with
  | none => none
  | some b2 => some (lowriseStep floors b2)

/-- `estimate(inp, cfg)`: the full pipeline.  `none` models the (config-
degenerate) cases where the Python code would raise `ZeroDivisionError`;
with the default config the result is always `some`. -/
def estimate (inp : ModelInputs) (cfg : ModelConfig) : Option ModelResult :=
  let notes := _validate_inputs inp.form_factor inp.window_ratio inp.floors
    inp.parking_ratio inp.atemp_to_bta inp.climate_improved_applicability
  match geomBreakdown cfg inp.system_boundary inp.form_factor inp.window_ratio
      inp.building_height_m inp.floors with
  | none => none
  | some b3 =>
    let method_mult := methodMult cfg inp.method
    let heavy_mult := heavyMult inp.heavy_concrete_design
    let system_struct_mult := systemStructMult inp.system_boundary inp.structural_system
    let b4 := scaleKeys b3 structuralKeys (method_mult * heavy_mult * system_struct_mult)
    let b5 := belowGradeStep cfg inp.basement inp.underground_garage
      inp.parking_ratio inp.atemp_to_bta b4
    match climateStep cfg inp.system_boundary inp.climate_improved_materials
        inp.climate_improved_applicability b5 notes with
    | none => none
    | some (b6, notes2) =>
      let total := sumB b6
      let timber_t := match inp.timber_t_per_m2_override with
        | some o => max 0.0 o
        | none => cfg.timber_t_per_m2_default_by_system inp.structural_system
      let ref : ℚ := 375.0
      let delta := total - ref
      let delta_pct := (delta / ref) * 100.0
      some
        { total_kg_per_m2_bta := total
          total_t_per_m2_bta := total / 1000.0
          reference_kg_per_m2_bta := ref
          delta_vs_reference_kg := delta
          delta_vs_reference_percent := delta_pct
          breakdown_kg_per_m2_bta := b6
          timber_t_per_m2_bta := timber_t
          notes := notes2 }

/-- Breakdown entry of an estimation result (`none` when the pipeline failed
or the key is absent). -/
def bdAt (o : Option ModelResult) (k : Category) : Option ℚ :=
  o.bind (fun r => r.breakdown_kg_per_m2_bta k)

/-- Total of an estimation result, defaulting to 0 when the pipeline failed. -/
def totalVal (o : Option ModelResult) : ℚ :=
  (o.map (fun r => r.total_kg_per_m2_bta)).getD 0

/-- Notes of an estimation result, defaulting to `[]`. -/
def notesOf (o : Option ModelResult) : List String :=
  (o.map (fun r => r.notes)).getD []

/-- Timber mass of an estimation result, defaulting to 0. -/
def timberVal (o : Option ModelResult) : ℚ :=
  (o.map (fun r => r.timber_t_per_m2_bta)).getD 0

/-- Every value present in the breakdown dict is nonnegative. -/
def NonnegB (b : Breakdown) : Prop :=
  ∀ k q, b k = some q → 0 ≤ q

/-- The empty breakdown dict. -/
def emptyBreakdown : Breakdown := fun _ => none

/-- Scenario A of the spec: early scope, reference geometry, 6 floors,
prefabricated concrete, all flags off. -/
def scenarioA_inputs : ModelInputs :=
  { system_boundary := .b2022
    form_factor := 0.45
    window_ratio := 0.20
    floors := 6 }

/-- Scenario D of the spec: zero floors and out-of-range form factor. -/
def scenarioD_inputs : ModelInputs :=
  { scenarioA_inputs with floors := 0, form_factor := 5.0 }

/-- Scenario A with a negative form factor (drives the envelope negative). -/
def negFormFactor_inputs : ModelInputs :=
  { scenarioA_inputs with form_factor := -1 }

/-- Scenario A with a negative timber-mass override. -/
def negOverride_inputs : ModelInputs :=
  { scenarioA_inputs with timber_t_per_m2_override := some (-1) }

/-- Scenario A with climate-improved materials enabled. -/
def climateOn_inputs : ModelInputs :=
  { scenarioA_inputs with climate_improved_materials := true }

/-- Scenario A with climate improvement, an underground garage at parking
ratio 0.5 and Atemp/BTA 0.90. -/
def garageClimate_inputs : ModelInputs :=
  { scenarioA_inputs with
    climate_improved_materials := true
    underground_garage := true
    parking_ratio := 0.5
    atemp_to_bta := 0.9 }

/-- Extended scope, timber system, negative form factor and large
climate-improvement applicability. -/
def c8Timber_inputs : ModelInputs :=
  { system_boundary := .b2027
    form_factor := -0.6
    window_ratio := 0.20
    floors := 6
    structural_system := .Trae
    climate_improved_materials := true
    climate_improved_applicability := 8 }

/-- Extended scope, reference geometry, timber system, all flags off. -/
def c8Baseline_inputs : ModelInputs :=
  { system_boundary := .b2027
    form_factor := 0.45
    window_ratio := 0.20
    floors := 6 }

/-- Reading an updated dict at the written key. -/
theorem updateB_self (b : Breakdown) (k : Category) (v : ℚ) :
    updateB b k v k = some v := by
  simp [updateB]

/-- Reading an updated dict at any other key. -/
theorem updateB_ne (b : Breakdown) (k k' : Category) (v : ℚ) (h : k' ≠ k) :
    updateB b k v k' = b k' := by
  simp [updateB, h]

/-- With the default config the envelope step never divides by zero. -/
theorem envelopeStep_default_some (ff w : ℚ) (bh : Option ℚ) (fl : ℤ)
    (b : Breakdown) :
    ∃ b2, envelopeStep default_config ff w bh fl b = some b2 := by
  unfold envelopeStep
  rcases hK : b .Klimatskarm with _ | v
  · exact ⟨b, rfl⟩
  · dsimp only
    rw [if_neg (by norm_num [default_config] :
      ¬ default_config.ref_form_factor = 0)]
    rw [if_neg (by norm_num [default_config] :
      ¬ default_config.ref_window_ratio * default_config.window_to_wall_intensity_ratio
          + (1 - default_config.ref_window_ratio) * 1.0 = 0)]
    exact ⟨_, rfl⟩

/-- With the default config steps 1-3 never divide by zero. -/
theorem geomBreakdown_default_some (boundary : SystemBoundary) (ff w : ℚ)
    (bh : Option ℚ) (fl : ℤ) :
    ∃ b3, geomBreakdown default_config boundary ff w bh fl = some b3 := by
  obtain ⟨b2, h2⟩ := envelopeStep_default_some ff w bh fl
    (baseBreakdown default_config boundary)
  exact ⟨lowriseStep fl b2, by unfold geomBreakdown; rw [h2]⟩

/-- With the default config the climate step never divides by zero. -/
theorem climateStep_default_some (boundary : SystemBoundary) (ci : Bool)
    (app : ℚ) (b : Breakdown) (notes : List String) :
    ∃ p, climateStep default_config boundary ci app b notes = some p := by
  unfold climateStep
  dsimp only
  split
  · split
    · have hg : ¬ default_config.median_kg_per_m2 boundary = 0 := by
        cases boundary <;> norm_num [default_config]
      rw [if_neg hg]
      exact ⟨_, rfl⟩
    · exact ⟨_, rfl⟩
  · exact ⟨_, rfl⟩

/-- The climate step only ever appends to the notes it is given. -/
theorem climateStep_notes (cfg : ModelConfig) (boundary : SystemBoundary)
    (ci : Bool) (app : ℚ) (b b' : Breakdown) (n n' : List String)
    (h : climateStep cfg boundary ci app b n = some (b', n')) :
    ∃ rest, n' = n ++ rest := by
  unfold climateStep at h
  dsimp only at h
  split at h
  · split at h
    · split at h
      · exact absurd h (by simp)
      · exact ⟨[], by cases h; simp⟩
    · exact ⟨_, by cases h; rfl⟩
  · exact ⟨[], by cases h; simp⟩

/-- Full characterization of `estimate` under the default config: the
pipeline always succeeds and the result record is assembled from the step-6
breakdown `b6` and notes `n2`. -/
theorem estimate_default_eq (inp : ModelInputs) :
    ∃ b3 b6 n2,
      geomBreakdown default_config inp.system_boundary inp.form_factor
        inp.window_ratio inp.building_height_m inp.floors = some b3 ∧
      climateStep default_config inp.system_boundary
        inp.climate_improved_materials inp.climate_improved_applicability
        (belowGradeStep default_config inp.basement inp.underground_garage
          inp.parking_ratio inp.atemp_to_bta
          (scaleKeys b3 structuralKeys
            (methodMult default_config inp.method *
              heavyMult inp.heavy_concrete_design *
              systemStructMult inp.system_boundary inp.structural_system)))
        (_validate_inputs inp.form_factor inp.window_ratio inp.floors
          inp.parking_ratio inp.atemp_to_bta inp.climate_improved_applicability)
        = some (b6, n2) ∧
      estimate inp default_config = some
        { total_kg_per_m2_bta := sumB b6
          total_t_per_m2_bta := sumB b6 / 1000.0
          reference_kg_per_m2_bta := 375.0
          delta_vs_reference_kg := sumB b6 - 375.0
          delta_vs_reference_percent := (sumB b6 - 375.0) / 375.0 * 100.0
          breakdown_kg_per_m2_bta := b6
          timber_t_per_m2_bta := match inp.timber_t_per_m2_override with
            | some o => max 0.0 o
            | none => default_config.timber_t_per_m2_default_by_system
                inp.structural_system
          notes := n2 } := by
  obtain ⟨b3, hgeom⟩ := geomBreakdown_default_some inp.system_boundary
    inp.form_factor inp.window_ratio inp.building_height_m inp.floors
  obtain ⟨⟨b6, n2⟩, hclim⟩ := climateStep_default_some inp.system_boundary
    inp.climate_improved_materials inp.climate_improved_applicability
    (belowGradeStep default_config inp.basement inp.underground_garage
      inp.parking_ratio inp.atemp_to_bta
      (scaleKeys b3 structuralKeys
        (methodMult default_config inp.method *
          heavyMult inp.heavy_concrete_design *
          systemStructMult inp.system_boundary inp.structural_system)))
    (_validate_inputs inp.form_factor inp.window_ratio inp.floors
      inp.parking_ratio inp.atemp_to_bta inp.climate_improved_applicability)
  refine ⟨b3, b6, n2, hgeom, hclim, ?_⟩
  unfold estimate
  dsimp only
  rw [hgeom]
  dsimp only
  rw [hclim]

/-- The envelope step only changes the "Klimatskärm" entry. -/
theorem envelopeStep_ne (cfg : ModelConfig) (ff w : ℚ) (bh : Option ℚ)
    (fl : ℤ) (b b2 : Breakdown)
    (h : envelopeStep cfg ff w bh fl b = some b2) (k : Category)
    (hk : k ≠ .Klimatskarm) : b2 k = b k := by
  unfold envelopeStep at h
  rcases hK : b .Klimatskarm with _ | v <;> rw [hK] at h <;> dsimp only at h
  · cases h
    rfl
  · split_ifs at h
    cases h
    simp [updateB, hk]

/-- The low-rise step only changes the "Grund" and "Klimatskärm" entries. -/
theorem lowriseStep_ne (fl : ℤ) (b : Breakdown) (k : Category)
    (h1 : k ≠ .Grund) (h2 : k ≠ .Klimatskarm) :
    lowriseStep fl b k = b k := by
  unfold lowriseStep
  split
  · dsimp only
    rcases hG : b .Grund with _ | vg <;>
      rcases hK : b .Klimatskarm with _ | vk <;>
      simp [hG, hK, updateB, h1, h2]
  · rfl

/-- Steps 1-3 leave every entry other than "Grund" and "Klimatskärm" at its
base value. -/
theorem geomBreakdown_ne (cfg : ModelConfig) (boundary : SystemBoundary)
    (ff w : ℚ) (bh : Option ℚ) (fl : ℤ) (b3 : Breakdown)
    (h : geomBreakdown cfg boundary ff w bh fl = some b3) (k : Category)
    (h1 : k ≠ .Grund) (h2 : k ≠ .Klimatskarm) :
    b3 k = baseBreakdown cfg boundary k := by
  unfold geomBreakdown at h
  rcases hE : envelopeStep cfg ff w bh fl (baseBreakdown cfg boundary)
    with _ | b2 <;> rw [hE] at h <;> dsimp only at h
  · cases h
  · cases h
    rw [lowriseStep_ne fl b2 k h1 h2, envelopeStep_ne cfg ff w bh fl _ b2 hE k h2]

/-- Step 4 multiplies exactly the three structural keys by `m` and leaves the
other two entries unchanged. -/
theorem scaleKeys_structural (b : Breakdown) (m : ℚ) :
    scaleKeys b structuralKeys m .Stomme = (b .Stomme).map (fun v => v * m) ∧
    scaleKeys b structuralKeys m .Grund = (b .Grund).map (fun v => v * m) ∧
    scaleKeys b structuralKeys m .Innervaggar
      = (b .Innervaggar).map (fun v => v * m) ∧
    scaleKeys b structuralKeys m .Klimatskarm = b .Klimatskarm ∧
    scaleKeys b structuralKeys m .Ytskikt = b .Ytskikt := by
  unfold scaleKeys structuralKeys
  rcases hS : b .Stomme with _ | vs <;> rcases hG : b .Grund with _ | vg <;>
    rcases hI : b .Innervaggar with _ | vi <;>
    simp [List.foldl, hS, hG, hI, updateB]

/-- Step 5 only changes the "Grund" entry. -/
theorem belowGradeStep_ne (cfg : ModelConfig) (ba ug : Bool) (pr ab : ℚ)
    (b : Breakdown) (k : Category) (hk : k ≠ .Grund) :
    belowGradeStep cfg ba ug pr ab b k = b k := by
  unfold belowGradeStep
  dsimp only
  split_ifs <;> simp [updateB, hk]

/-- The value of "Grund" after step 5: the previous value (0 when absent)
plus the basement and garage add-ons. -/
theorem belowGradeStep_grund (cfg : ModelConfig) (ba ug : Bool) (pr ab : ℚ)
    (b : Breakdown) :
    ((belowGradeStep cfg ba ug pr ab b) .Grund).getD 0
      = (b .Grund).getD 0
        + (if ba then cfg.basement_add_kg_per_m2_bta else 0)
        + (if ug then cfg.garage_add_kg_per_m2_atemp_parking05 * ab * (pr / 0.5)
           else 0) := by
  unfold belowGradeStep
  dsimp only
  split_ifs <;> simp [updateB]

/-- A single reduction iteration of step 6 leaves other keys unchanged. -/
theorem applyReduction_ne (t s : ℚ) (b : Breakdown) (kk k : Category)
    (h : k ≠ kk) : applyReduction t s b kk k = b k := by
  unfold applyReduction
  rcases b kk <;> simp [updateB, h]

/-- Step 6 never changes the "Innerväggar" and "Ytskikt" entries. -/
theorem climateStep_unaffected (cfg : ModelConfig) (boundary : SystemBoundary)
    (ci : Bool) (app : ℚ) (b b' : Breakdown) (n n' : List String)
    (h : climateStep cfg boundary ci app b n = some (b', n')) (k : Category)
    (h1 : k ≠ .Stomme) (h2 : k ≠ .Grund) (h3 : k ≠ .Klimatskarm) :
    b' k = b k := by
  unfold climateStep at h
  dsimp only at h
  split at h
  · split at h
    · split at h
      · exact absurd h (by simp)
      · cases h
        show (affectedKeys.foldl (applyReduction _ _) b) k = b k
        unfold affectedKeys
        simp only [List.foldl]
        rw [applyReduction_ne _ _ _ _ _ h3, applyReduction_ne _ _ _ _ _ h2,
          applyReduction_ne _ _ _ _ _ h1]
    · cases h
      rfl
  · cases h
    rfl

/-- Every method other than the two cast-in-place concrete ones resolves to
multiplier 1 in the default table (the dict default is also 1.0). -/
theorem methodMult_default_eq_one (m : String)
    (h1 : m ≠ "Platsgjuten betong (lätta utfackningsväggar)")
    (h2 : m ≠ "Platsgjuten betong (kvarsittande form)") :
    methodMult default_config m = 1 := by
  simp only [methodMult, default_config, dictGet]
  split_ifs <;> norm_num

/-- Every default method multiplier is positive. -/
theorem methodMult_default_pos (m : String) :
    0 < methodMult default_config m := by
  simp only [methodMult, default_config, dictGet]
  split_ifs <;> norm_num

/-- The structural-system multiplier is positive. -/
theorem systemStructMult_pos (boundary : SystemBoundary)
    (s : StructuralSystem) : 0 < systemStructMult boundary s := by
  cases s <;> unfold systemStructMult <;> try norm_num
  split_ifs <;> norm_num

/-- The heavy-design multiplier is positive. -/
theorem heavyMult_pos (hc : Bool) : 0 < heavyMult hc := by
  cases hc <;> norm_num [heavyMult]

/-- `estimate` depends on the method only through its multiplier. -/
theorem estimate_method_irrel (cfg : ModelConfig) (sb : SystemBoundary)
    (ff w : ℚ) (fl : ℤ) (bh : Option ℚ) (ss : StructuralSystem)
    (m₁ m₂ : String) (hc ci : Bool) (app : ℚ) (ba ug : Bool) (pr ab : ℚ)
    (ov : Option ℚ) (hm : methodMult cfg m₁ = methodMult cfg m₂) :
    estimate ⟨sb, ff, w, fl, bh, ss, m₁, hc, ci, app, ba, ug, pr, ab, ov⟩ cfg
      = estimate ⟨sb, ff, w, fl, bh, ss, m₂, hc, ci, app, ba, ug, pr, ab, ov⟩ cfg := by
  unfold estimate
  dsimp only
  rw [hm]

/-- The final "Innerväggar" value under the default config: the baseline
share scaled by the step-4 multiplier, untouched by every other step. -/
theorem estimate_default_innervaggar (inp : ModelInputs) :
    bdAt (estimate inp default_config) .Innervaggar
      = some (default_config.median_kg_per_m2 inp.system_boundary * 0.10 *
          (methodMult default_config inp.method *
            heavyMult inp.heavy_concrete_design *
            systemStructMult inp.system_boundary inp.structural_system)) := by
  obtain ⟨b3, b6, n2, hgeom, hclim, hest⟩ := estimate_default_eq inp
  rw [hest]
  show b6 .Innervaggar = _
  rw [climateStep_unaffected _ _ _ _ _ _ _ _ hclim .Innervaggar
    (by decide) (by decide) (by decide)]
  rw [belowGradeStep_ne _ _ _ _ _ _ .Innervaggar (by decide)]
  rw [(scaleKeys_structural b3 _).2.2.1]
  rw [geomBreakdown_ne _ _ _ _ _ _ _ hgeom .Innervaggar (by decide) (by decide)]
  cases hb : inp.system_boundary <;>
    simp [baseBreakdown, shareTable, default_config]

/-- C2: under the default config, Scenario A (early scope, form factor and
window ratio at their reference values, 6 floors, prefabricated concrete,
concrete system, all flags off, no timber override) yields exactly the
breakdown Stomme 159.0, Grund 47.7, Klimatskärm 79.5, Innerväggar 31.8 and no
other key, total 318.0 kg/m² = 0.318 ton/m², delta −57 kg (−15.2 %) against
the 375 reference, and timber mass 0.005 ton/m². -/
theorem claim_C2_scenarioA :
    (estimate scenarioA_inputs default_config).isSome = true ∧
    bdAt (estimate scenarioA_inputs default_config) .Stomme = some 159.0 ∧
    bdAt (estimate scenarioA_inputs default_config) .Grund = some 47.7 ∧
    bdAt (estimate scenarioA_inputs default_config) .Klimatskarm = some 79.5 ∧
    bdAt (estimate scenarioA_inputs default_config) .Innervaggar = some 31.8 ∧
    bdAt (estimate scenarioA_inputs default_config) .Ytskikt = none ∧
    totalVal (estimate scenarioA_inputs default_config) = 318.0 ∧
    (estimate scenarioA_inputs default_config).map
      (fun r => r.total_t_per_m2_bta) = some 0.318 ∧
    (estimate scenarioA_inputs default_config).map
      (fun r => r.delta_vs_reference_kg) = some (-57) ∧
    (estimate scenarioA_inputs default_config).map
      (fun r => r.delta_vs_reference_percent) = some (-15.2) ∧
    timberVal (estimate scenarioA_inputs default_config) = 0.005 := by
  decide

/-- C9: the structure-affected-share config fields are never consumed by the
pipeline: overriding `structure_affected_share_2022` and
`structure_affected_share_2027` with any values leaves the `ModelResult` of
`estimate` unchanged for every input, so every pair of configs that differ
only in these two fields produces equal results. -/
theorem claim_C9_unused_config (inp : ModelInputs) (c : ModelConfig) (x y : ℚ) :
    estimate inp { c with structure_affected_share_2022 := x,
                          structure_affected_share_2027 := y }
      = estimate inp c := by
  rfl

/-- C1 counterexample: with the default config and a form factor of −1 (all
other Scenario A parameters), the envelope category of the returned breakdown
is −530/3 ≈ −176.7 < 0, so the breakdown is NOT nonnegative for every
`ModelInputs` record. -/
theorem claim_C1_counterexample :
    bdAt (estimate negFormFactor_inputs default_config) .Klimatskarm
      = some (-530 / 3) ∧ (-530 / 3 : ℚ) < 0 := by
  constructor
  · decide
  · norm_num

/-- C3 counterexample: with a provided but negative timber override (−1) and
the concrete structural system, the result's timber mass is 0, not the
system's default intensity 0.005 claimed by C3. -/
theorem claim_C3_counterexample :
    timberVal (estimate negOverride_inputs default_config) = 0 ∧
    default_config.timber_t_per_m2_default_by_system
      negOverride_inputs.structural_system ≠ 0 := by
  constructor
  · decide
  · decide

/-- C4 counterexample: a provided negative building height (−5.6 m over 2
floors) is truthy in the source, so the floor-height factor is the clamp
value 0.8, not the 1.0 that C4 claims for "height zero or negative". -/
theorem claim_C4_counterexample :
    heightFactor (some (-5.6)) 2 = 0.8 ∧ (0.8 : ℚ) ≠ 1 := by
  constructor
  · decide
  · norm_num

/-- C4 (amended): the floor-height factor is the clamp to [0.8, 1.3] of
(height / floors) / 2.8 whenever the height is provided and NONZERO (of
either sign — a negative height also takes the clamp branch, yielding 0.8)
and the floor count is positive; it is exactly 1.0 when the height is
absent, the height is zero, or the floor count is not positive. -/
theorem claim_C4_height_factor (bh : Option ℚ) (fl : ℤ) :
    (bh = none → heightFactor bh fl = 1.0) ∧
    (bh = some 0 → heightFactor bh fl = 1.0) ∧
    (fl ≤ 0 → heightFactor bh fl = 1.0) ∧
    (∀ h, bh = some h → h ≠ 0 → 0 < fl →
      heightFactor bh fl = max 0.8 (min 1.3 (h / (fl : ℚ) / 2.8))) := by
  refine ⟨?_, ?_, ?_, ?_⟩
  · intro hbh
    rw [hbh]
    rfl
  · intro hbh
    rw [hbh]
    unfold heightFactor
    dsimp only
    rw [if_neg]
    simp
  · intro hfl
    unfold heightFactor
    rcases bh with _ | h
    · rfl
    · dsimp only
      rw [if_neg]
      rintro ⟨-, hpos⟩
      omega
  · intro h hbh hne hpos
    rw [hbh]
    unfold heightFactor
    dsimp only
    rw [if_pos ⟨hne, hpos⟩]

/-- C4 witness: the amended C4 theorem applied at concrete inputs — no
height gives factor 1.0, and 20 m over 2 floors clamps to 1.3. -/
theorem claim_C4_witness :
    heightFactor none 6 = 1.0 ∧ heightFactor (some 20) 2 = 1.3 := by
  constructor
  · exact (claim_C4_height_factor none 6).1 rfl
  · rw [(claim_C4_height_factor (some 20) 2).2.2.2 20 rfl (by norm_num) (by norm_num)]
    decide

/-- C7 counterexample: with climate-improved materials enabled (an input C7
quantifies over), the garage run's foundation exceeds the no-garage run's by
3520876/96990 ≈ 36.3 kg/m², not by exactly 43.2 kg/m². -/
theorem claim_C7_counterexample :
    (bdAt (estimate garageClimate_inputs default_config) .Grund).getD 0
        - (bdAt (estimate { garageClimate_inputs with underground_garage := false }
            default_config) .Grund).getD 0
      ≠ 43.2 := by
  decide

/-- C3 (amended): for every input under the default config, the result's
timber mass is `max 0 override` whenever an override is provided (so a zero
or negative override yields 0, not the structural system's default), and the
structural system's default mass intensity only when the override is absent. -/
theorem claim_C3_timber_override (inp : ModelInputs) :
    ∃ r, estimate inp default_config = some r ∧
      r.timber_t_per_m2_bta = (match inp.timber_t_per_m2_override with
        | some o => max 0.0 o
        | none => default_config.timber_t_per_m2_default_by_system
            inp.structural_system) := by
  obtain ⟨b3, b6, n2, hgeom, hclim, hest⟩ := estimate_default_eq inp
  exact ⟨_, hest, rfl⟩

/-- C5: under the default config `estimate` always produces a result (the
shallow embedding returns `none` exactly where the source would raise, and
this never happens with the default config); the validator's advisory notes
are always a prefix of the result's notes (validation never blocks
estimation); and for Scenario D (floors = 0, form factor = 5.0) the notes
contain a floors advisory and a form-factor advisory. -/
theorem claim_C5_no_failure :
    (∀ inp, (estimate inp default_config).isSome = true) ∧
    (∀ inp, ∃ rest,
      notesOf (estimate inp default_config)
        = _validate_inputs inp.form_factor inp.window_ratio inp.floors
            inp.parking_ratio inp.atemp_to_bta
            inp.climate_improved_applicability ++ rest) ∧
    "Antal våningar måste vara minst 1."
      ∈ notesOf (estimate scenarioD_inputs default_config) ∧
    "Formfaktor verkar ligga utanför normalt intervall (0,2–1,5)."
      ∈ notesOf (estimate scenarioD_inputs default_config) := by
  refine ⟨?_, ?_, by decide, by decide⟩
  · intro inp
    obtain ⟨b3, b6, n2, hgeom, hclim, hest⟩ := estimate_default_eq inp
    rw [hest]
    rfl
  · intro inp
    obtain ⟨b3, b6, n2, hgeom, hclim, hest⟩ := estimate_default_eq inp
    obtain ⟨rest, hrest⟩ := climateStep_notes _ _ _ _ _ _ _ _ hclim
    exact ⟨rest, by rw [hest]; simpa [notesOf] using hrest⟩

/-- C10: under the default config the two timber methods, the reference
method "Prefabricerad betong" and every unrecognized method string all have
multiplier 1.0, so swapping the method among them (all other inputs held
fixed) leaves the whole `ModelResult` unchanged; the two cast-in-place
concrete methods always change the result. -/
theorem claim_C10_method_neutrality (sb : SystemBoundary) (ff w : ℚ)
    (fl : ℤ) (bh : Option ℚ) (ss : StructuralSystem) (hc ci : Bool)
    (app : ℚ) (ba ug : Bool) (pr ab : ℚ) (ov : Option ℚ) :
    (∀ m : String, m ≠ "Platsgjuten betong (lätta utfackningsväggar)" →
      m ≠ "Platsgjuten betong (kvarsittande form)" →
      estimate ⟨sb, ff, w, fl, bh, ss, m, hc, ci, app, ba, ug, pr, ab, ov⟩
          default_config
        = estimate ⟨sb, ff, w, fl, bh, ss, "Prefabricerad betong",
            hc, ci, app, ba, ug, pr, ab, ov⟩ default_config) ∧
    estimate ⟨sb, ff, w, fl, bh, ss,
        "Platsgjuten betong (lätta utfackningsväggar)",
        hc, ci, app, ba, ug, pr, ab, ov⟩ default_config
      ≠ estimate ⟨sb, ff, w, fl, bh, ss, "Prefabricerad betong",
          hc, ci, app, ba, ug, pr, ab, ov⟩ default_config ∧
    estimate ⟨sb, ff, w, fl, bh, ss,
        "Platsgjuten betong (kvarsittande form)",
        hc, ci, app, ba, ug, pr, ab, ov⟩ default_config
      ≠ estimate ⟨sb, ff, w, fl, bh, ss, "Prefabricerad betong",
          hc, ci, app, ba, ug, pr, ab, ov⟩ default_config := by
  refine ⟨?_, ?_, ?_⟩
  · intro m hm1 hm2
    exact estimate_method_irrel default_config sb ff w fl bh ss m
      "Prefabricerad betong" hc ci app ba ug pr ab ov
      (by rw [methodMult_default_eq_one m hm1 hm2]; rfl)
  · intro heq
    have h1 := estimate_default_innervaggar
      ⟨sb, ff, w, fl, bh, ss, "Platsgjuten betong (lätta utfackningsväggar)",
        hc, ci, app, ba, ug, pr, ab, ov⟩
    have h2 := estimate_default_innervaggar
      ⟨sb, ff, w, fl, bh, ss, "Prefabricerad betong",
        hc, ci, app, ba, ug, pr, ab, ov⟩
    rw [congrArg (fun o => bdAt o .Innervaggar) heq, h2] at h1
    cases sb <;> cases ss <;> cases hc <;>
      simp [systemStructMult, heavyMult, methodMult, dictGet,
        default_config] at h1 <;> norm_num at h1
  · intro heq
    have h1 := estimate_default_innervaggar
      ⟨sb, ff, w, fl, bh, ss, "Platsgjuten betong (kvarsittande form)",
        hc, ci, app, ba, ug, pr, ab, ov⟩
    have h2 := estimate_default_innervaggar
      ⟨sb, ff, w, fl, bh, ss, "Prefabricerad betong",
        hc, ci, app, ba, ug, pr, ab, ov⟩
    rw [congrArg (fun o => bdAt o .Innervaggar) heq, h2] at h1
    cases sb <;> cases ss <;> cases hc <;>
      simp [systemStructMult, heavyMult, methodMult, dictGet,
        default_config] at h1 <;> norm_num at h1

/-- C10 witness: the neutrality part applied at Scenario A with the timber
volume-element method. -/
theorem claim_C10_witness :
    estimate { scenarioA_inputs with method := "Volymelement i trä" }
        default_config
      = estimate scenarioA_inputs default_config := by
  exact (claim_C10_method_neutrality .b2022 0.45 0.20 6 none .Betong
    false false 1 false false 0.5 0.90 none).1
    "Volymelement i trä" (by decide) (by decide)

/-- C8 counterexample: for extended scope with a negative form factor and
climate-improvement applicability 8, the timber-system total (≈452.4) is NOT
strictly less than the otherwise-identical concrete-system total (≈139.0). -/
theorem claim_C8_counterexample :
    ¬ (totalVal (estimate c8Timber_inputs default_config)
        < totalVal (estimate { c8Timber_inputs with structural_system := .Betong }
            default_config)) := by
  decide

/-- With the climate-improvement flag off, step 6 is the identity. -/
theorem climateStep_off (cfg : ModelConfig) (boundary : SystemBoundary)
    (app : ℚ) (b : Breakdown) (n : List String) :
    climateStep cfg boundary false app b n = some (b, n) := rfl

/-- Writing one key changes the dict sum by the difference at that key. -/
theorem sumB_updateB (b : Breakdown) (k : Category) (v : ℚ) :
    sumB (updateB b k v) = sumB b - (b k).getD 0 + v := by
  cases k <;> simp [sumB, allCategories, updateB] <;> ring

/-- `getD 0` commutes with scaling an optional value. -/
theorem map_mul_getD (o : Option ℚ) (m : ℚ) :
    (o.map (fun v => v * m)).getD 0 = o.getD 0 * m := by
  cases o <;> simp

/-- The step-5 add-ons shift the dict sum by exactly the added amounts. -/
theorem sumB_belowGrade (cfg : ModelConfig) (ba ug : Bool) (pr ab : ℚ)
    (b : Breakdown) :
    sumB (belowGradeStep cfg ba ug pr ab b)
      = sumB b + (if ba then cfg.basement_add_kg_per_m2_bta else 0)
        + (if ug then cfg.garage_add_kg_per_m2_atemp_parking05 * ab * (pr / 0.5)
           else 0) := by
  unfold belowGradeStep
  dsimp only
  split_ifs <;> simp [sumB_updateB] <;> ring

/-- The dict sum after step 4: the three structural keys scaled, the other
two unchanged. -/
theorem sumB_scaleKeys_structural (b : Breakdown) (m : ℚ) :
    sumB (scaleKeys b structuralKeys m)
      = ((b .Stomme).getD 0 + (b .Grund).getD 0 + (b .Innervaggar).getD 0) * m
        + (b .Klimatskarm).getD 0 + (b .Ytskikt).getD 0 := by
  obtain ⟨h1, h2, h3, h4, h5⟩ := scaleKeys_structural b m
  simp [sumB, allCategories, h1, h2, h3, h4, h5, map_mul_getD]
  ring

/-- C7 (amended): with the climate-improvement flag off, parking ratio 0.5
and Atemp/BTA 0.90, setting the underground-garage flag raises the final
foundation ("Grund") value by exactly 48.0 × 0.90 × (0.5/0.5) = 43.2 kg/m²
relative to the otherwise-identical no-garage run, for every remaining
input under the default config. -/
theorem claim_C7_garage_delta (sb : SystemBoundary) (ff w : ℚ) (fl : ℤ)
    (bh : Option ℚ) (ss : StructuralSystem) (me : String) (hc : Bool)
    (app : ℚ) (ba : Bool) (ov : Option ℚ) :
    (bdAt (estimate ⟨sb, ff, w, fl, bh, ss, me, hc, false, app, ba, true,
        0.5, 0.9, ov⟩ default_config) .Grund).getD 0
      = (bdAt (estimate ⟨sb, ff, w, fl, bh, ss, me, hc, false, app, ba, false,
          0.5, 0.9, ov⟩ default_config) .Grund).getD 0 + 43.2 := by
  obtain ⟨b3, hgeom⟩ := geomBreakdown_default_some sb ff w bh fl
  unfold estimate
  dsimp only
  rw [hgeom]
  dsimp only
  rw [climateStep_off, climateStep_off]
  dsimp only [bdAt, Option.bind]
  rw [belowGradeStep_grund, belowGradeStep_grund]
  cases ba <;> norm_num [default_config]

/-- The value of "Grund" after the low-rise step. -/
theorem lowriseStep_grund (fl : ℤ) (b : Breakdown) :
    lowriseStep fl b .Grund = if fl < 4 then
      (b .Grund).map (fun v => v * (1.0 + 0.05 * ((4 - fl : ℤ) : ℚ)))
    else b .Grund := by
  unfold lowriseStep
  split_ifs with h
  · dsimp only
    rcases hG : b .Grund with _ | vg <;>
      rcases hK : b .Klimatskarm with _ | vk <;>
      simp [hG, hK, updateB]
  · rfl

/-- The low-rise factor is nonnegative whenever the branch is taken. -/
theorem lowrise_factor_nonneg (fl : ℤ) (h : fl < 4) :
    0 ≤ 1.0 + 0.05 * ((4 - fl : ℤ) : ℚ) := by
  have h1 : (1 : ℤ) ≤ 4 - fl := by omega
  have h2 : (1 : ℚ) ≤ ((4 - fl : ℤ) : ℚ) := by exact_mod_cast h1
  nlinarith

/-- The "Grund" value after steps 1-3 is nonnegative under the default
config. -/
theorem geom_grund_nonneg (boundary : SystemBoundary) (ff w : ℚ)
    (bh : Option ℚ) (fl : ℤ) (b3 : Breakdown)
    (h : geomBreakdown default_config boundary ff w bh fl = some b3) :
    0 ≤ (b3 .Grund).getD 0 := by
  unfold geomBreakdown at h
  rcases hE : envelopeStep default_config ff w bh fl
      (baseBreakdown default_config boundary) with _ | b2 <;>
    rw [hE] at h <;> dsimp only at h
  · cases h
  · cases h
    have hb2 : b2 .Grund = baseBreakdown default_config boundary .Grund :=
      envelopeStep_ne _ _ _ _ _ _ _ hE .Grund (by decide)
    have hbase : baseBreakdown default_config boundary .Grund
        = some (default_config.median_kg_per_m2 boundary * 0.15) := by
      cases boundary <;> rfl
    have hmed : (0 : ℚ) ≤ default_config.median_kg_per_m2 boundary := by
      cases boundary <;> norm_num [default_config]
    rw [lowriseStep_grund]
    split_ifs with hfl
    · rw [hb2, map_mul_getD, hbase]
      have := lowrise_factor_nonneg fl hfl
      simp only [Option.getD]
      nlinarith
    · rw [hb2, hbase]
      simp only [Option.getD]
      nlinarith

/-- C8 (amended): for extended scope the structural-system multiplier for
timber is 0.51 and step 4 multiplies exactly the structure, foundation and
interior-walls categories by the combined method × heavy × 0.51 factor; with
the climate-improvement flag off, the timber-system total is strictly less
than the otherwise-identical concrete-system total under the default
config. -/
theorem claim_C8_timber_total (ff w : ℚ) (fl : ℤ) (bh : Option ℚ)
    (me : String) (hc : Bool) (app : ℚ) (ba ug : Bool) (pr ab : ℚ)
    (ov : Option ℚ) :
    systemStructMult .b2027 .Trae = 0.51 ∧
    (∀ b : Breakdown,
      scaleKeys b structuralKeys
          (methodMult default_config me * heavyMult hc * 0.51) .Stomme
        = (b .Stomme).map
            (fun v => v * (methodMult default_config me * heavyMult hc * 0.51)) ∧
      scaleKeys b structuralKeys
          (methodMult default_config me * heavyMult hc * 0.51) .Grund
        = (b .Grund).map
            (fun v => v * (methodMult default_config me * heavyMult hc * 0.51)) ∧
      scaleKeys b structuralKeys
          (methodMult default_config me * heavyMult hc * 0.51) .Innervaggar
        = (b .Innervaggar).map
            (fun v => v * (methodMult default_config me * heavyMult hc * 0.51))) ∧
    totalVal (estimate ⟨.b2027, ff, w, fl, bh, .Trae, me, hc, false, app,
        ba, ug, pr, ab, ov⟩ default_config)
      < totalVal (estimate ⟨.b2027, ff, w, fl, bh, .Betong, me, hc, false, app,
          ba, ug, pr, ab, ov⟩ default_config) := by
  refine ⟨rfl, ?_, ?_⟩
  · intro b
    obtain ⟨h1, h2, h3, -, -⟩ := scaleKeys_structural b
      (methodMult default_config me * heavyMult hc * 0.51)
    exact ⟨h1, h2, h3⟩
  · obtain ⟨b3, hgeom⟩ := geomBreakdown_default_some .b2027 ff w bh fl
    have hSt := geomBreakdown_ne _ _ _ _ _ _ _ hgeom .Stomme
      (by decide) (by decide)
    have hIn := geomBreakdown_ne _ _ _ _ _ _ _ hgeom .Innervaggar
      (by decide) (by decide)
    have hGr := geom_grund_nonneg _ _ _ _ _ _ hgeom
    unfold estimate
    dsimp only
    rw [hgeom]
    dsimp only
    rw [climateStep_off, climateStep_off]
    simp only [totalVal, Option.map, Option.getD]
    rw [sumB_belowGrade, sumB_belowGrade, sumB_scaleKeys_structural,
      sumB_scaleKeys_structural, hSt, hIn]
    rw [show (baseBreakdown default_config .b2027 .Stomme).getD 0
        = 373.0 * 0.45 from rfl,
      show (baseBreakdown default_config .b2027 .Innervaggar).getD 0
        = 373.0 * 0.10 from rfl,
      show systemStructMult .b2027 .Trae = 0.51 from rfl,
      show systemStructMult .b2027 .Betong = 1.00 from rfl]
    have hmm := methodMult_default_pos me
    have hhm := heavyMult_pos hc
    have hS : (0 : ℚ) < 373.0 * 0.45 + (b3 .Grund).getD 0 + 373.0 * 0.10 := by
      nlinarith
    nlinarith [mul_pos (mul_pos hmm hhm) hS]

/-- A nonnegative dict has nonnegative `getD 0` reads. -/
theorem nonnegB_getD (b : Breakdown) (h : NonnegB b) (k : Category) :
    0 ≤ (b k).getD 0 := by
  rcases hk : b k with _ | q
  · simp
  · simpa using h k q hk

/-- Writing a nonnegative value preserves dict nonnegativity. -/
theorem nonnegB_updateB (b : Breakdown) (k : Category) (v : ℚ)
    (h : NonnegB b) (hv : 0 ≤ v) : NonnegB (updateB b k v) := by
  intro k' q hq
  rcases eq_or_ne k' k with rfl | hne
  · rw [updateB_self] at hq
    cases hq
    exact hv
  · rw [updateB_ne _ _ _ _ hne] at hq
    exact h _ _ hq

/-- The step-1 breakdown is nonnegative under the default config. -/
theorem nonnegB_base (boundary : SystemBoundary) :
    NonnegB (baseBreakdown default_config boundary) := by
  intro k q hq
  cases boundary <;> cases k <;>
    simp [baseBreakdown, shareTable, default_config] at hq <;>
    norm_num [← hq]

/-- The floor-height factor is always nonnegative. -/
theorem heightFactor_nonneg (bh : Option ℚ) (fl : ℤ) :
    0 ≤ heightFactor bh fl := by
  unfold heightFactor
  rcases bh with _ | h
  · norm_num
  · dsimp only
    split_ifs
    · have h1 : (0.8 : ℚ) ≤ max 0.8 (min 1.3 (h / (fl : ℚ) / 2.8)) :=
        le_max_left _ _
      nlinarith
    · norm_num

/-- The envelope step preserves nonnegativity when the form factor and
window ratio are nonnegative (default config). -/
theorem nonnegB_envelope (ff w : ℚ) (bh : Option ℚ) (fl : ℤ)
    (b b2 : Breakdown) (hff : 0 ≤ ff) (hw : 0 ≤ w)
    (h : envelopeStep default_config ff w bh fl b = some b2)
    (hb : NonnegB b) : NonnegB b2 := by
  unfold envelopeStep at h
  rcases hK : b .Klimatskarm with _ | v <;> rw [hK] at h <;> dsimp only at h
  · cases h
    exact hb
  · split_ifs at h
    cases h
    apply nonnegB_updateB _ _ _ hb
    have hv : 0 ≤ v := hb _ _ hK
    have h1 : 0 ≤ ff / default_config.ref_form_factor :=
      div_nonneg hff (by norm_num [default_config])
    have h2 : 0 ≤ heightFactor bh fl := heightFactor_nonneg bh fl
    have h3 : 0 ≤ (w * default_config.window_to_wall_intensity_ratio
          + (1 - w) * 1.0)
        / (default_config.ref_window_ratio *
            default_config.window_to_wall_intensity_ratio
          + (1 - default_config.ref_window_ratio) * 1.0) := by
      apply div_nonneg
      · norm_num [default_config]
        nlinarith
      · norm_num [default_config]
    positivity

/-- Multiplying one optional key by a nonnegative factor preserves dict
nonnegativity (the shape shared by the step-3 and step-4 key updates). -/
theorem nonnegB_mulKey (b : Breakdown) (k : Category) (f : ℚ)
    (hb : NonnegB b) (hf : 0 ≤ f) :
    NonnegB (match b k with
      | some v => updateB b k (v * f)
      | none => b) := by
  rcases hbk : b k with _ | v <;> dsimp only
  · exact hb
  · exact nonnegB_updateB _ _ _ hb (mul_nonneg (hb _ _ hbk) hf)

/-- The low-rise step preserves nonnegativity. -/
theorem nonnegB_lowrise (fl : ℤ) (b : Breakdown) (hb : NonnegB b) :
    NonnegB (lowriseStep fl b) := by
  unfold lowriseStep
  split_ifs with hfl
  · dsimp only
    exact nonnegB_mulKey _ .Klimatskarm _
      (nonnegB_mulKey b .Grund _ hb (lowrise_factor_nonneg fl hfl))
      (lowrise_factor_nonneg fl hfl)
  · exact hb

/-- Step 4 preserves nonnegativity for a nonnegative multiplier. -/
theorem nonnegB_scaleKeys (b : Breakdown) (keys : List Category) (m : ℚ)
    (hb : NonnegB b) (hm : 0 ≤ m) : NonnegB (scaleKeys b keys m) := by
  induction keys generalizing b with
  | nil => exact hb
  | cons k ks ih =>
    show NonnegB (scaleKeys b (k :: ks) m)
    unfold scaleKeys
    rw [List.foldl_cons]
    exact ih _ (nonnegB_mulKey b k m hb hm)

/-- One step-6 reduction iteration preserves nonnegativity (it clamps at 0). -/
theorem nonnegB_applyReduction (t s : ℚ) (b : Breakdown) (k : Category)
    (hb : NonnegB b) : NonnegB (applyReduction t s b k) := by
  unfold applyReduction
  rcases hbk : b k with _ | v <;> dsimp only
  · exact hb
  · exact nonnegB_updateB _ _ _ hb (le_max_left 0.0 _)

/-- The whole step-6 reduction loop preserves nonnegativity. -/
theorem nonnegB_fold_red (t s : ℚ) (keys : List Category) (b : Breakdown)
    (hb : NonnegB b) : NonnegB (keys.foldl (applyReduction t s) b) := by
  induction keys generalizing b with
  | nil => exact hb
  | cons k ks ih =>
    rw [List.foldl_cons]
    exact ih _ (nonnegB_applyReduction t s b k hb)

/-- Step 5 preserves nonnegativity under the default config when the parking
ratio and Atemp/BTA ratio are nonnegative. -/
theorem nonnegB_belowGrade (ba ug : Bool) (pr ab : ℚ) (b : Breakdown)
    (hb : NonnegB b) (hpr : 0 ≤ pr) (hab : 0 ≤ ab) :
    NonnegB (belowGradeStep default_config ba ug pr ab b) := by
  have hgar : 0 ≤ default_config.garage_add_kg_per_m2_atemp_parking05
      * ab * (pr / 0.5) :=
    mul_nonneg (mul_nonneg (by norm_num [default_config]) hab)
      (div_nonneg hpr (by norm_num))
  have h25 : (0 : ℚ) ≤ default_config.basement_add_kg_per_m2_bta := by
    norm_num [default_config]
  unfold belowGradeStep
  dsimp only
  split_ifs
  · have hbb := nonnegB_updateB b .Grund
      ((b .Grund).getD 0 + default_config.basement_add_kg_per_m2_bta) hb
      (add_nonneg (nonnegB_getD b hb .Grund) h25)
    exact nonnegB_updateB _ _ _ hbb
      (add_nonneg (nonnegB_getD _ hbb .Grund) hgar)
  · exact nonnegB_updateB _ _ _ hb
      (add_nonneg (nonnegB_getD b hb .Grund) hgar)
  · exact nonnegB_updateB _ _ _ hb
      (add_nonneg (nonnegB_getD b hb .Grund) h25)
  · exact hb

/-- Step 6 preserves nonnegativity whenever it succeeds. -/
theorem nonnegB_climateStep (cfg : ModelConfig) (boundary : SystemBoundary)
    (ci : Bool) (app : ℚ) (b : Breakdown) (n : List String) (b' : Breakdown)
    (n' : List String) (h : climateStep cfg boundary ci app b n = some (b', n'))
    (hb : NonnegB b) : NonnegB b' := by
  unfold climateStep at h
  dsimp only at h
  split at h
  · split at h
    · split at h
      · exact absurd h (by simp)
      · cases h
        exact nonnegB_fold_red _ _ _ _ hb
    · cases h
      exact hb
  · cases h
    exact hb

/-- Steps 1-3 produce a nonnegative breakdown under the default config when
the form factor and window ratio are nonnegative. -/
theorem nonnegB_geom (boundary : SystemBoundary) (ff w : ℚ) (bh : Option ℚ)
    (fl : ℤ) (b3 : Breakdown) (hff : 0 ≤ ff) (hw : 0 ≤ w)
    (h : geomBreakdown default_config boundary ff w bh fl = some b3) :
    NonnegB b3 := by
  unfold geomBreakdown at h
  rcases hE : envelopeStep default_config ff w bh fl
      (baseBreakdown default_config boundary) with _ | b2 <;>
    rw [hE] at h <;> dsimp only at h
  · cases h
  · cases h
    exact nonnegB_lowrise _ _
      (nonnegB_envelope _ _ _ _ _ _ hff hw hE (nonnegB_base boundary))

/-- C1 (amended): under the default config, every category value in the
returned breakdown is nonnegative for every input whose form factor, window
ratio, parking ratio and Atemp/BTA ratio are nonnegative — including when
the climate-improved flag is set with applicability 1 (the step-6 clamp).
(The original "for every ModelInputs record" is refuted by
`claim_C1_counterexample`.) -/
theorem claim_C1_breakdown_nonneg (inp : ModelInputs)
    (hff : 0 ≤ inp.form_factor) (hw : 0 ≤ inp.window_ratio)
    (hpr : 0 ≤ inp.parking_ratio) (hab : 0 ≤ inp.atemp_to_bta) :
    (estimate inp default_config).isSome = true ∧
    ∀ k, 0 ≤ (bdAt (estimate inp default_config) k).getD 0 := by
  obtain ⟨b3, b6, n2, hgeom, hclim, hest⟩ := estimate_default_eq inp
  have h3 := nonnegB_geom _ _ _ _ _ _ hff hw hgeom
  have hmlt : 0 ≤ methodMult default_config inp.method
      * heavyMult inp.heavy_concrete_design
      * systemStructMult inp.system_boundary inp.structural_system :=
    le_of_lt (mul_pos
      (mul_pos (methodMult_default_pos _) (heavyMult_pos _))
      (systemStructMult_pos _ _))
  have h4 := nonnegB_scaleKeys b3 structuralKeys _ h3 hmlt
  have h5 := nonnegB_belowGrade inp.basement inp.underground_garage _ _ _ h4 hpr hab
  have h6 := nonnegB_climateStep _ _ _ _ _ _ _ _ hclim h5
  constructor
  · rw [hest]
    rfl
  · intro k
    rw [hest]
    exact nonnegB_getD b6 h6 k

/-- C1 witness: the amended nonnegativity theorem applied at Scenario A. -/
theorem claim_C1_witness :
    (estimate scenarioA_inputs default_config).isSome = true ∧
    ∀ k, 0 ≤ (bdAt (estimate scenarioA_inputs default_config) k).getD 0 :=
  claim_C1_breakdown_nonneg scenarioA_inputs (by norm_num [scenarioA_inputs])
    (by norm_num [scenarioA_inputs]) (by norm_num [scenarioA_inputs])
    (by norm_num [scenarioA_inputs])

/-- C6: with the climate-improved flag set (and a nonzero generic baseline,
as in the default config): when the pre-step total and the
structure+foundation+envelope sum are both positive, each of those three
categories (when present) becomes
max 0 (v − targetReduction·(v / affectedSum)) with
targetReduction = max 0 (generic − improved) · (total / generic) ·
applicability — i.e. the reduction is distributed proportionally to each
category's share of the affected sum and clamped at 0 — and every other key
is untouched; otherwise the breakdown is returned unchanged with an advisory
note appended, and no failure occurs. -/
theorem claim_C6_climate_step (cfg : ModelConfig) (boundary : SystemBoundary)
    (app : ℚ) (b : Breakdown) (notes : List String)
    (hg : cfg.median_kg_per_m2 boundary ≠ 0) :
    (0 < sumB b ∧ 0 < affectedSum b →
      climateStep cfg boundary true app b notes = some (fun k =>
        if k = .Stomme ∨ k = .Grund ∨ k = .Klimatskarm then
          (b k).map (fun v => max 0.0 (v -
            (max 0.0 (cfg.median_kg_per_m2 boundary
                - cfg.median_kg_per_m2_climate_improved boundary)
              * (sumB b / cfg.median_kg_per_m2 boundary) * app)
            * (v / affectedSum b)))
        else b k, notes)) ∧
    (¬ (0 < sumB b ∧ 0 < affectedSum b) →
      climateStep cfg boundary true app b notes = some (b, notes ++
        ["Kunde inte applicera klimatförbättring (noll/negativt delbidrag)."])) := by
  constructor
  · intro hpos
    unfold climateStep
    dsimp only
    rw [if_pos hpos, if_neg hg]
    refine congrArg some (Prod.ext ?_ rfl)
    show (affectedKeys.foldl (applyReduction _ _) b) = _
    funext k
    unfold affectedKeys
    simp only [List.foldl]
    rcases k <;>
      rcases hS : b .Stomme with _ | vs <;>
      rcases hG : b .Grund with _ | vg <;>
      rcases hK : b .Klimatskarm with _ | vk <;>
      simp [applyReduction, updateB, hS, hG, hK]
  · intro hneg
    unfold climateStep
    dsimp only
    rw [if_neg hneg]
    rfl

/-- C6 witness: the climate-step theorem applied at the default config and
the empty breakdown, taking the zero-sum advisory branch. -/
theorem claim_C6_witness :
    climateStep default_config .b2022 true 1 emptyBreakdown []
      = some (emptyBreakdown,
          ["Kunde inte applicera klimatförbättring (noll/negativt delbidrag)."]) :=
  (claim_C6_climate_step default_config .b2022 1 emptyBreakdown []
    (by norm_num [default_config])).2 (by decide)

end ClimateModel
